import Mathlib

/-!
Verification of the Gmail MCP server repository (two server variants:
`gmail_mcp_server.py`, called "Primary" below, and
`gmail_mcp_server_secondary.py`, called "Secondary" below).

The Python sources are shallowly embedded: Python exceptions become
`Except PyErr`, Python dict/JSON values become `JVal`, MIME trees become
`MimePart`, and the remote Gmail provider and the local filesystem are
modelled as explicit environments (`Provider`, `FS`).
-/

/-- A Python exception: its class name and its message. -/
structure PyErr where
  kind : String
  msg : String
deriving DecidableEq, Repr

/-- A JSON-like value, the type of payloads returned by the MCP tools. -/
inductive JVal where
  | str : String → JVal
  | nat : Nat → JVal
  | bool : Bool → JVal
  | list : List JVal → JVal
  | dict : List (String × JVal) → JVal
  | null : JVal

/-- Lookup of a key in a list of dict fields (first occurrence wins). -/
def jfind : List (String × JVal) → String → Option JVal
  | [], _ => none
  | (k', v) :: rest, k => if k' == k then some v else jfind rest k

/-- Lookup of a key in a `JVal`; `none` when the value is not a dict. -/
def jget : JVal → String → Option JVal
  | .dict fields, k => jfind fields k
  | _, _ => none

/-- The Python try/except wrapper used by every Secondary tool: a raised
exception is converted to the fixed error dict, a returned value passes
through unchanged. -/
def pyTry : Except PyErr JVal → JVal
  | .ok v => v
  | .error e => .dict [("success", .bool false), ("error", .str e.msg)]

/-- Python truthiness of an optional string (`None` and `""` are falsy). -/
def strTruthy : Option String → Bool
  | none => false
  | some s => s != ""

/-- Transport-encoded (url-safe base64) body data. `good t` stands for data
that decodes to the text `t`; `bad r` stands for data whose bytes are not
valid base64, so decoding raises. -/
inductive B64 where
  | good : String → B64
  | bad : String → B64
deriving DecidableEq, Repr

/-- Model of `base64.urlsafe_b64decode` followed by text decoding, as used by
both servers: malformed transport bytes raise `binascii.Error`. -/
def b64decode : B64 → Except PyErr String
  | .good t => .ok t
  | .bad r => .error ⟨"binascii.Error", r⟩

/-- Python truthiness of a data string (empty transport string is falsy). -/
def b64Truthy : B64 → Bool
  | .good t => t != ""
  | .bad _ => true

/-- A node of the provider's message payload tree. `body` is
`none` when the `body` key is absent, `some none` when the `body` dict has no
`data` key, and `some (some d)` when data is present. `parts` is `none` when
the `parts` key is absent. -/
inductive MPart where
  | mk : (mimeType : String) → (body : Option (Option B64)) →
      (parts : Option (List MPart)) → MPart

def MPart.mimeType : MPart → String
  | .mk m _ _ => m

def MPart.body : MPart → Option (Option B64)
  | .mk _ b _ => b

def MPart.parts : MPart → Option (List MPart)
  | .mk _ _ p => p

namespace Secondary

/-- The expression `part['body']['data']` of `_extract_body`
(`gmail_mcp_server_secondary.py` lines 765, 769): direct indexing, raising
`KeyError` when either key is absent. -/
def getBodyData (p : MPart) : Except PyErr B64 :=
  match p.body with
  | none => .error ⟨"KeyError", "body"⟩
  | some none => .error ⟨"KeyError", "data"⟩
  | some (some d) => .ok d

/-- The `for part in payload['parts']` loop of `_extract_body`
(lines 763-770): the accumulator is the current value of `body`; a
`text/plain` part is decoded and returned immediately (`break`), a
`text/html` part is decoded into the accumulator and the loop continues. -/
def extractLoop (acc : String) : List MPart → Except PyErr String
  | [] => .ok acc
  | p :: rest =>
    if p.mimeType == "text/plain" then
      match getBodyData p with
      | .error e => .error e
      | .ok d =>
        match b64decode d with
        | .error e => .error e
        | .ok s => .ok s
    else if p.mimeType == "text/html" then
      match getBodyData p with
      | .error e => .error e
      | .ok d =>
        match b64decode d with
        | .error e => .error e
        | .ok s => extractLoop s rest
    else
      extractLoop acc rest

/-- `GmailMCPServer._extract_body` (lines 758-774). When the payload has a
`parts` key the top-level loop runs; otherwise `payload['body'].get('data')`
is consulted (raising `KeyError` when the `body` key itself is absent). -/
def extractBody (p : MPart) : Except PyErr String :=
  match p.parts with
  | some ps => extractLoop "" ps
  | none =>
    match p.body with
    | none => .error ⟨"KeyError", "body"⟩
    | some none => .ok ""
    | some (some d) =>
      if b64Truthy d then b64decode d else .ok ""

end Secondary

/-- Decoded text of a part whose data is present and well formed. -/
def goodText (p : MPart) : Option String :=
  match p.body with
  | some (some (B64.good t)) => some t
  | _ => none

/-- Decoded text of the first top-level `text/plain` part, if any. -/
def firstPlainText : List MPart → Option String
  | [] => none
  | p :: rest =>
    if p.mimeType == "text/plain" then goodText p else firstPlainText rest

/-- Decoded text of the last top-level `text/html` part, if any. -/
def lastHtmlText : List MPart → Option String
  | [] => none
  | p :: rest =>
    match lastHtmlText rest with
    | some t => some t
    | none => if p.mimeType == "text/html" then goodText p else none

/-- Follows the spec's words, for comparison with the code (refinement
check): prefer a plain-text part found at any nesting level, else an HTML
part at any nesting level, else the provider snippet. -/
def specFirstOfMime (mt : String) : MPart → Option String
  | .mk mt' b ps =>
    match ps with
    | some l => specFirstOfMimeList mt l
    | none => if mt' == mt then
        (match b with
         | some (some (B64.good t)) => some t
         | _ => none)
      else none
where
  /-- Walk of a list of sibling parts. -/
  specFirstOfMimeList (mt : String) : List MPart → Option String
    | [] => none
    | p :: rest =>
      match specFirstOfMime mt p with
      | some t => some t
      | none => specFirstOfMimeList mt rest

/-- Follows the spec's words (decode preference order). -/
def specPreferredBody (snippet : String) (p : MPart) : String :=
  match specFirstOfMime "text/plain" p with
  | some t => t
  | none =>
    match specFirstOfMime "text/html" p with
    | some t => t
    | none => snippet

/-- State of a path on the local filesystem: absent, present but not
readable (e.g. permission denied), or readable with the given bytes. -/
inductive FileState where
  | absent : FileState
  | unreadable : FileState
  | readable : List Nat → FileState
deriving DecidableEq, Repr

/-- The local filesystem, a map from paths to file states. -/
structure FS where
  files : String → FileState

/-- Whether `os.path.isfile` is true for the path (the file exists). -/
def FileState.isFile : FileState → Bool
  | .absent => false
  | _ => true

/-- Whether the path can actually be opened and read. -/
def FileState.isReadable : FileState → Bool
  | .readable _ => true
  | _ => false

/-- Model of `os.path.basename`: the segment after the last slash. -/
def basename (p : String) : String :=
  match (p.split (· == '/')).getLast? with
  | some s => s
  | none => p

/-- Model of `", ".join(xs)`. -/
def joinComma (xs : List String) : String :=
  String.intercalate ", " xs

/-- A node of an outbound MIME message under construction: a text part
(`MIMEText`), a base64-encoded file part (`MIMEBase` with a
`Content-Disposition: attachment` header), or a multipart container with its
subtype (`MIMEMultipart`). -/
inductive MimePart where
  | text : (subtype : String) → (content : String) → MimePart
  | file : (mainType subType : String) → (filename : String) →
      (content : List Nat) → MimePart
  | multipart : (subtype : String) → (parts : List MimePart) → MimePart

/-- An outbound message: its headers in insertion order and its content. -/
structure Composed where
  headers : List (String × String)
  content : MimePart

/-- First header with the given name (the semantics of reading a freshly
built Python `email` message, where each name was set once). -/
def headerGet (hs : List (String × String)) (k : String) : Option String :=
  match hs with
  | [] => none
  | (k', v) :: rest => if k' == k then some v else headerGet rest k

/-- Last-occurrence-wins lookup, the value a Python dict comprehension
`{h['name']: h['value'] for h in headers}` would associate to `k`. -/
def dictGet (hs : List (String × String)) (k : String) : Option String :=
  match hs with
  | [] => none
  | (k', v) :: rest =>
    match dictGet rest k with
    | some v' => some v'
    | none => if k' == k then some v else none

/-- A message as stored at the remote provider, as far as the embedded
operations read it: thread id, raw header list, payload tree, snippet and
label ids. -/
structure StoredMessage where
  threadId : String
  headers : List (String × String)
  payload : MPart
  snippet : String
  labelIds : List String

/-- The id pair returned by the provider for a sent message. -/
structure SentIds where
  id : String
  threadId : String
deriving DecidableEq, Repr

/-- Model of the remote Gmail provider (an external system, not repository
code). `sendOk = some m` makes the next send raise an `HttpError` with
message `m`; otherwise a send succeeds and is assigned the fresh id
`newId`. `searchIds q` is the full list of message ids matching query `q`. -/
structure Provider where
  profileEmail : Option String
  newId : String
  sendOk : Option String
  messages : String → Option StoredMessage
  searchIds : String → List String

/-- Provider semantics of `users().messages().send`: on success the message
gets the fresh id; a send that names no thread starts a new thread whose id
equals the message id, and a send into an existing thread keeps that
thread's id. -/
def providerSend (pv : Provider) (threadId : Option String) :
    Except PyErr SentIds :=
  match pv.sendOk with
  | some m => .error ⟨"HttpError", m⟩
  | none => .ok ⟨pv.newId, threadId.getD pv.newId⟩

/-- Provider semantics of `users().messages().get`: the stored message, or
an `HttpError` when the id is unknown. -/
def providerGetMessage (pv : Provider) (mid : String) :
    Except PyErr StoredMessage :=
  match pv.messages mid with
  | some m => .ok m
  | none => .error ⟨"HttpError", "404 not found: " ++ mid⟩

/-- Provider semantics of `users().messages().list` with `maxResults = n`:
at most `n` matching ids are returned. -/
def providerList (pv : Provider) (q : String) (n : Nat) : List String :=
  (pv.searchIds q).take n

namespace Primary

/-- `GmailService.get_user_email` (`gmail_mcp_server.py` lines 90-92):
the profile's `emailAddress`, defaulting to `"me"`. -/
def getUserEmail (pv : Provider) : String :=
  pv.profileEmail.getD "me"

/-- The attachment loop of `GmailService._compose` (lines 120-131): each
path is opened; on an `OSError` the attachment is skipped and a warning is
logged; otherwise a base64-encoded `application/octet-stream` part carrying
the base file name is attached. Returns the attachment parts and the
logged warnings, both in file order. -/
def attachLoop (fs : FS) : List String → List MimePart × List String
  | [] => ([], [])
  | f :: rest =>
    let (ps, ws) := attachLoop fs rest
    match fs.files f with
    | .readable c =>
      (.file "application" "octet-stream" (basename f) c :: ps, ws)
    | _ => (ps, ("Attachment error " ++ f) :: ws)

/-- The body part `_compose` builds (lines 112-119 and 134-142): an
alternative container with the plain variant first and the HTML variant
second when `mime_type` is `multipart/alternative` and `html_body` is
truthy, otherwise a single text part. -/
def bodyPart (body : String) (mimeType : String) (htmlBody : Option String) :
    MimePart :=
  if mimeType == "multipart/alternative" && strTruthy htmlBody then
    .multipart "alternative"
      [.text "plain" body, .text "html" (htmlBody.getD "")]
  else
    .text (if mimeType == "text/html" then "html" else "plain") body

/-- `GmailService._compose` (lines 94-145). Headers are `From`, `To`,
`Subject`, then `Cc`/`Bcc` when their joined values are truthy. With a
truthy attachment list the result is a mixed container whose first part is
the body part followed by the attachment parts; otherwise the body part
alone carries the headers. Also returns the attachment warnings. -/
def compose (fs : FS) (sender : String) (toAddrs : List String)
    (subject : String) (body : String) (mimeType : String)
    (cc : Option (List String)) (bcc : Option (List String))
    (htmlBody : Option String) (attachments : Option (List String)) :
    Composed × List String :=
  let toHeader := match toAddrs with
    | [] => ""
    | _ => joinComma toAddrs
  let ccHeader := cc.map joinComma
  let bccHeader := bcc.map joinComma
  let headers :=
    [("From", sender), ("To", toHeader), ("Subject", subject)] ++
    (match ccHeader with
     | some s => if s != "" then [("Cc", s)] else []
     | none => []) ++
    (match bccHeader with
     | some s => if s != "" then [("Bcc", s)] else []
     | none => [])
  match attachments with
  | some (a :: rest) =>
    let (atts, ws) := attachLoop fs (a :: rest)
    (⟨headers, .multipart "mixed" (bodyPart body mimeType htmlBody :: atts)⟩,
     ws)
  | _ => (⟨headers, bodyPart body mimeType htmlBody⟩, [])

/-- The composed outbound payload of `GmailService.send_email`
(lines 153-163): `_compose` with the authenticated account's address as
sender. -/
def sendComposed (fs : FS) (pv : Provider) (toAddrs : List String)
    (subject body : String) (cc bcc : Option (List String))
    (mimeType : String) (attachments : Option (List String))
    (htmlBody : Option String) : Composed × List String :=
  compose fs (getUserEmail pv) toAddrs subject body mimeType cc bcc htmlBody
    attachments

/-- The composed outbound payload of `GmailService.create_draft`
(lines 176-186), identical in shape to the send path. -/
def draftComposed (fs : FS) (pv : Provider) (toAddrs : List String)
    (subject body : String) (cc bcc : Option (List String))
    (mimeType : String) (attachments : Option (List String))
    (htmlBody : Option String) : Composed × List String :=
  compose fs (getUserEmail pv) toAddrs subject body mimeType cc bcc htmlBody
    attachments

/-- `GmailService.send_email` (lines 147-168): compose, transport-frame, send
through the provider and return only `result.get("id")`. -/
def sendEmail (fs : FS) (pv : Provider) (toAddrs : List String)
    (subject body : String) (cc bcc : Option (List String))
    (mimeType : String) (attachments : Option (List String))
    (htmlBody : Option String) : Except PyErr String :=
  let _mime := sendComposed fs pv toAddrs subject body cc bcc mimeType
    attachments htmlBody
  match providerSend pv none with
  | .error e => .error e
  | .ok ids => .ok ids.id

/-- The `send_email` tool wrapper (lines 284-307): on success it returns a
plain confirmation string; an `HttpError` is caught, logged and re-raised,
and any other exception is not caught at all, so every failure propagates
to the external caller. -/
def sendEmailTool (fs : FS) (pv : Provider) (toAddrs : List String)
    (subject body : String) (cc bcc : Option (List String))
    (mimeType : String) (attachments : Option (List String))
    (htmlBody : Option String) : Except PyErr JVal :=
  match sendEmail fs pv toAddrs subject body cc bcc mimeType attachments
      htmlBody with
  | .ok mid => .ok (.str ("Email sent successfully. Message ID: " ++ mid))
  | .error e => .error e

mutual

/-- The recursive `walk` of `GmailService.read_email` (lines 201-210) over a
payload node: when the node's `parts` entry is truthy, walk every child;
otherwise decode the node's own body data when it is truthy (malformed
base64 raises; the utf-8 step ignores errors), collecting all decoded leaf
texts in order. -/
def walk (p : MPart) : Except PyErr (List String) :=
  match p with
  | .mk _ b ps =>
    match ps with
    | some (q :: qs) => walkList (q :: qs)
    | _ =>
      match b with
      | some (some d) =>
        if b64Truthy d then
          match b64decode d with
          | .error e => .error e
          | .ok s => .ok [s]
        else .ok []
      | _ => .ok []

/-- Walk of the children of a payload node, in order. -/
def walkList : List MPart → Except PyErr (List String)
  | [] => .ok []
  | p :: rest =>
    match walk p with
    | .error e => .error e
    | .ok xs =>
      match walkList rest with
      | .error e => .error e
      | .ok ys => .ok (xs ++ ys)
end

end Primary

namespace Primary

/-- `GmailService.read_email` (lines 193-212): fetch the message, take the
first `Subject` and `From` headers, walk the payload for leaf bodies, and
join them with newlines, falling back to the snippet when no leaf yielded
text. -/
def readEmailStr (pv : Provider) (mid : String) : Except PyErr String :=
  match providerGetMessage pv mid with
  | .error e => .error e
  | .ok msg =>
    let subject := (headerGet msg.headers "Subject").getD ""
    let sender := (headerGet msg.headers "From").getD ""
    match walk msg.payload with
    | .error e => .error e
    | .ok bodyParts =>
      let body :=
        match bodyParts with
        | [] => msg.snippet
        | _ => String.intercalate "\n" bodyParts
      .ok ("Subject: " ++ subject ++ "\nFrom: " ++ sender ++ "\n\n" ++ body)

/-- The `read_email` tool wrapper (lines 334-341): `HttpError` is re-raised,
other exceptions are not caught; the decoded string passes through. -/
def readEmailTool (pv : Provider) (mid : String) : Except PyErr JVal :=
  match readEmailStr pv mid with
  | .ok s => .ok (.str s)
  | .error e => .error e

/-- The per-id metadata loop of `GmailService.search_emails`
(lines 218-225): each listed id is fetched and projected to an
`{id, subject, from}` dict (first matching header wins). -/
def searchLoop (pv : Provider) : List String → Except PyErr (List JVal)
  | [] => .ok []
  | mid :: rest =>
    match providerGetMessage pv mid with
    | .error e => .error e
    | .ok meta =>
      let item : JVal := .dict
        [("id", .str mid),
         ("subject", .str ((headerGet meta.headers "Subject").getD "")),
         ("from", .str ((headerGet meta.headers "From").getD ""))]
      match searchLoop pv rest with
      | .error e => .error e
      | .ok items => .ok (item :: items)

/-- `GmailService.search_emails` (lines 214-226): list at most
`max_results` ids and project each to a result dict. -/
def searchEmails (pv : Provider) (q : String) (maxResults : Nat) :
    Except PyErr (List JVal) :=
  searchLoop pv (providerList pv q maxResults)

/-- The `search_emails` tool wrapper (lines 343-350): `HttpError` re-raised,
the list passes through. -/
def searchEmailsTool (pv : Provider) (q : String) (maxResults : Nat) :
    Except PyErr JVal :=
  match searchEmails pv q maxResults with
  | .ok items => .ok (.list items)
  | .error e => .error e

end Primary

namespace Secondary

/-- Model of `mimetypes.guess_type` (standard library): a declared type for
a few known extensions, `none` otherwise. -/
def guessType (p : String) : Option (String × String) :=
  if p.endsWith ".txt" then some ("text", "plain")
  else if p.endsWith ".html" then some ("text", "html")
  else if p.endsWith ".pdf" then some ("application", "pdf")
  else none

/-- The attachment loop of the Secondary `send_email` (lines 163-179): a
path failing `os.path.isfile` is skipped silently; a path that exists is
opened inside the tool's try block, so a read failure raises and aborts the
whole send; a readable file becomes a base64-encoded part with its guessed
type (default `application/octet-stream`) and base file name. -/
def attachParts (fs : FS) : List String → Except PyErr (List MimePart)
  | [] => .ok []
  | f :: rest =>
    match fs.files f with
    | .absent => attachParts fs rest
    | .unreadable => .error ⟨"OSError", f⟩
    | .readable c =>
      let (mt, st) := (guessType f).getD ("application", "octet-stream")
      match attachParts fs rest with
      | .error e => .error e
      | .ok ps => .ok (.file mt st (basename f) c :: ps)

/-- Headers set by the Secondary `send_email` (lines 181-186): `to` and
`subject` always, `cc` and `bcc` only when truthy. -/
def sendHeaders (toAddr subject : String) (cc bcc : Option String) :
    List (String × String) :=
  [("to", toAddr), ("subject", subject)] ++
  (if strTruthy cc then [("cc", cc.getD "")] else []) ++
  (if strTruthy bcc then [("bcc", bcc.getD "")] else [])

/-- The outbound message the Secondary `send_email` composes
(lines 158-186): with a truthy attachment list, a mixed container whose
first part is the body text followed by the attachment parts; otherwise a
single text part. The body subtype is `html` when the `html` flag is set. -/
def sendComposed (fs : FS) (toAddr subject body : String)
    (cc bcc : Option String) (html : Bool)
    (attachments : Option (List String)) : Except PyErr Composed :=
  let textPart : MimePart := .text (if html then "html" else "plain") body
  match attachments with
  | some (a :: rest) =>
    match attachParts fs (a :: rest) with
    | .error e => .error e
    | .ok ps =>
      .ok ⟨sendHeaders toAddr subject cc bcc, .multipart "mixed" (textPart :: ps)⟩
  | _ => .ok ⟨sendHeaders toAddr subject cc bcc, textPart⟩

/-- The Secondary `send_email` tool (lines 133-200): compose, send through
the provider with no thread id, and return the success dict with the
assigned `messageId` and `threadId`; every exception inside the body is
caught and turned into the error dict. -/
def sendEmailTool (fs : FS) (pv : Provider) (toAddr subject body : String)
    (cc bcc : Option String) (html : Bool)
    (attachments : Option (List String)) : JVal :=
  pyTry
    (match sendComposed fs toAddr subject body cc bcc html attachments with
     | .error e => .error e
     | .ok _msg =>
       match providerSend pv none with
       | .error e => .error e
       | .ok ids => .ok (.dict
           [("success", .bool true),
            ("messageId", .str ids.id),
            ("threadId", .str ids.threadId)]))

/-- The body of the Secondary `read_email` tool (lines 305-349): fetch the
message, extract the body with `_extract_body` when the format is `full`,
and build the success dict. -/
def readEmailBody (pv : Provider) (mid : String) (format : String) :
    Except PyErr JVal :=
  match providerGetMessage pv mid with
  | .error e => .error e
  | .ok msg =>
    match (if format == "full" then extractBody msg.payload else .ok "") with
    | .error e => .error e
    | .ok bodyContent => .ok (.dict
        [("success", .bool true),
         ("id", .str mid),
         ("threadId", .str msg.threadId),
         ("labelIds", .list (msg.labelIds.map .str)),
         ("snippet", .str msg.snippet),
         ("headers", .dict (msg.headers.map (fun h => (h.1, .str h.2)))),
         ("body", .str bodyContent),
         ("sizeEstimate", .nat 0),
         ("internalDate", .str "")])

/-- The Secondary `read_email` tool with its try/except wrapper. -/
def readEmailTool (pv : Provider) (mid : String) (format : String) : JVal :=
  pyTry (readEmailBody pv mid format)

/-- The per-id metadata loop of the Secondary `search_emails`
(lines 276-295): each listed id is fetched and projected to a result item
dict (dict-comprehension header lookup, last occurrence wins). -/
def searchLoop (pv : Provider) : List String → Except PyErr (List JVal)
  | [] => .ok []
  | mid :: rest =>
    match providerGetMessage pv mid with
    | .error e => .error e
    | .ok md =>
      let item : JVal := .dict
        [("id", .str mid),
         ("threadId", .str md.threadId),
         ("from", .str ((dictGet md.headers "From").getD "")),
         ("to", .str ((dictGet md.headers "To").getD "")),
         ("subject", .str ((dictGet md.headers "Subject").getD "")),
         ("date", .str ((dictGet md.headers "Date").getD "")),
         ("snippet", .str md.snippet),
         ("labelIds", .list (md.labelIds.map .str))]
      match searchLoop pv rest with
      | .error e => .error e
      | .ok items => .ok (item :: items)

/-- The body of the Secondary `search_emails` tool (lines 248-303). -/
def searchEmailsBody (pv : Provider) (q : String) (maxResults : Nat)
    (_includeSpamTrash : Bool) : Except PyErr JVal :=
  match searchLoop pv (providerList pv q maxResults) with
  | .error e => .error e
  | .ok items => .ok (.dict
      [("success", .bool true),
       ("count", .nat items.length),
       ("emails", .list items)])

/-- The Secondary `search_emails` tool with its try/except wrapper. -/
def searchEmailsTool (pv : Provider) (q : String) (maxResults : Nat)
    (includeSpamTrash : Bool) : JVal :=
  pyTry (searchEmailsBody pv q maxResults includeSpamTrash)

end Secondary

/-- Model of Python `s.replace("Re: ", "")`: one left-to-right pass removing
every non-overlapping occurrence of `"Re: "`. -/
def stripRe : List Char → List Char
  | 'R' :: 'e' :: ':' :: ' ' :: rest => stripRe rest
  | c :: rest => c :: stripRe rest
  | [] => []

/-- String version of `stripRe`. -/
def stripReStr (s : String) : String :=
  (stripRe s.data).asString

/-- Whether `"Re: "` occurs anywhere in the character list. -/
def containsRe : List Char → Bool
  | 'R' :: 'e' :: ':' :: ' ' :: _ => true
  | _ :: rest => containsRe rest
  | [] => false

/-- Number of left-to-right non-overlapping occurrences of `"Re: "`. -/
def countRe : List Char → Nat
  | 'R' :: 'e' :: ':' :: ' ' :: rest => countRe rest + 1
  | _ :: rest => countRe rest
  | [] => 0

namespace Secondary

/-- The reply message a `reply_to_email` call composes, together with the
thread id passed alongside the raw payload to the provider. -/
structure ReplyMsg where
  toAddr : String
  subject : String
  inReplyTo : String
  references : String
  content : MimePart

/-- The composition step of `reply_to_email` (lines 412-435): fetch the
original, read its headers through a dict comprehension, address the reply
to the original `From`, build the subject as
`"Re: " + subject.replace("Re: ", "")`, copy the threading headers, and
pass the original's `threadId` with the send. -/
def replyCompose (pv : Provider) (mid body : String) (html : Bool) :
    Except PyErr (ReplyMsg × String) :=
  match providerGetMessage pv mid with
  | .error e => .error e
  | .ok orig =>
    let subj := "Re: " ++ stripReStr ((dictGet orig.headers "Subject").getD "")
    let msgId := (dictGet orig.headers "Message-ID").getD ""
    .ok (⟨(dictGet orig.headers "From").getD "", subj, msgId, msgId,
          .text (if html then "html" else "plain") body⟩,
         orig.threadId)

/-- The Secondary `reply_to_email` tool (lines 395-443) with its try/except
wrapper: compose the reply, send it into the original's thread, and return
the success dict with the assigned ids. -/
def replyTool (pv : Provider) (mid body : String) (html : Bool) : JVal :=
  pyTry
    (match replyCompose pv mid body html with
     | .error e => .error e
     | .ok (_msg, tid) =>
       match providerSend pv (some tid) with
       | .error e => .error e
       | .ok ids => .ok (.dict
           [("success", .bool true),
            ("messageId", .str ids.id),
            ("threadId", .str ids.threadId)]))

end Secondary

/-- A stored OAuth credential as the servers test it: the google-auth
`valid`, `expired` and `refresh_token` attributes. -/
structure Creds where
  valid : Bool
  expired : Bool
  hasRefreshToken : Bool
deriving DecidableEq, Repr

/-- Effect of a successful `creds.refresh(Request())`: the access token is
fresh again. -/
def refreshCreds (c : Creds) : Creds :=
  { c with valid := true, expired := false }

/-- Environment of an authentication attempt: the stored token file
(`none` = no file, `some none` = file present but fails to load,
`some (some c)` = loads as `c`), whether the provider accepts a refresh,
the outcomes of the interactive flows, and whether the client-secret file
exists. -/
structure AuthEnv where
  stored : Option (Option Creds)
  refreshOk : Bool
  interactive : Except String Creds
  autoFlow : Except String Creds
  manualExchange : Except String Creds
  credentialsFileExists : Bool

/-- Observable outcome of an authentication attempt: the resulting
credential (or the propagated exception), and whether a refresh and an
interactive authorization-code exchange were attempted. -/
structure AuthTrace where
  result : Except String Creds
  refreshTried : Bool
  interactiveTried : Bool

namespace Primary

/-- `GmailService._get_service` (lines 62-88): a token that fails to load is
discarded with a warning; an expired credential holding a refresh token is
refreshed, and a refresh failure is caught, setting the credential back to
`None`; any credential still unusable goes through the interactive
`run_local_server` flow, whose own failure propagates. -/
def getService (env : AuthEnv) : AuthTrace :=
  let c0 : Option Creds :=
    match env.stored with
    | some (some c) => some c
    | _ => none
  match c0 with
  | some c =>
    if c.valid then ⟨.ok c, false, false⟩
    else if c.expired && c.hasRefreshToken then
      if env.refreshOk then ⟨.ok (refreshCreds c), true, false⟩
      else
        match env.interactive with
        | .ok ic => ⟨.ok ic, true, true⟩
        | .error e => ⟨.error e, true, true⟩
    else
      match env.interactive with
      | .ok ic => ⟨.ok ic, false, true⟩
      | .error e => ⟨.error e, false, true⟩
  | none =>
    match env.interactive with
    | .ok ic => ⟨.ok ic, false, true⟩
    | .error e => ⟨.error e, false, true⟩

end Primary

namespace Secondary

/-- `GmailMCPServer.authenticate` (lines 51-128): a token file that fails to
load raises out of `authenticate` (no try/except); an expired credential
holding a refresh token is refreshed with **no** exception handler, so a
refresh failure propagates and no interactive flow is attempted; otherwise
the interactive flow runs (missing client secrets raise
`FileNotFoundError`; the automatic flow falls back to the manual
code-paste exchange on failure). -/
def authenticate (env : AuthEnv) (manualAuth : Bool) : AuthTrace :=
  match env.stored with
  | some none => ⟨.error "token load error", false, false⟩
  | stored =>
    let c0 : Option Creds :=
      match stored with
      | some (some c) => some c
      | _ => none
    let interactivePath : AuthTrace :=
      if !env.credentialsFileExists then
        ⟨.error "FileNotFoundError: credentials.json", false, false⟩
      else
        let ir :=
          if manualAuth then env.manualExchange
          else
            match env.autoFlow with
            | .ok c => .ok c
            | .error _ => env.manualExchange
        match ir with
        | .ok c => ⟨.ok c, false, true⟩
        | .error e => ⟨.error e, false, true⟩
    match c0 with
    | some c =>
      if c.valid then ⟨.ok c, false, false⟩
      else if c.expired && c.hasRefreshToken then
        if env.refreshOk then ⟨.ok (refreshCreds c), true, false⟩
        else ⟨.error "refresh failed", true, false⟩
      else interactivePath
    | none => interactivePath

end Secondary

/-- The fixed result contract of the Tool Adapter: a success dict whose
`success` field is `true`, or exactly the `{success: false, error}` dict. -/
def resultShaped (v : JVal) : Prop :=
  jget v "success" = some (.bool true) ∨
  ∃ m, v = .dict [("success", .bool false), ("error", .str m)]

/-- Length of the `emails` field of a search result dict (0 when absent). -/
def emailsLen (v : JVal) : Nat :=
  match jget v "emails" with
  | some (.list l) => l.length
  | _ => 0

/-- Length of a returned list, 0 for an exception or non-list value. -/
def exceptListLen : Except PyErr JVal → Nat
  | .ok (.list l) => l.length
  | _ => 0

/-- The attachment part the Primary composer produces for a path, `none`
when the path cannot be read. -/
def readablePart (fs : FS) (f : String) : Option MimePart :=
  match fs.files f with
  | .readable c => some (.file "application" "octet-stream" (basename f) c)
  | _ => none

/-- The warning the Primary composer logs for an unreadable attachment. -/
def attachWarning (f : String) : String :=
  "Attachment error " ++ f

/-- A filesystem with no readable files. -/
def fsEmpty : FS := ⟨fun _ => .absent⟩

/-- A provider whose next send fails with a quota error. -/
def pvQuota : Provider :=
  ⟨some "me@x", "m1", some "quotaExceeded", fun _ => none, fun _ => []⟩

/-- A provider that accepts the next send and assigns id `m1`. -/
def pvPlain : Provider :=
  ⟨some "me@x", "m1", none, fun _ => none, fun _ => []⟩

/-- A stored message whose subject contains `"Re: "` away from the start in
a way that the reply logic's global replace mangles. -/
def msgTricky : StoredMessage :=
  ⟨"t1", [("From", "alice@x"), ("Subject", "RRe: e: hi"),
    ("Message-ID", "<id1>")],
   .mk "text/plain" (some (some (B64.good "b"))) none, "sn", []⟩

/-- A provider holding `msgTricky` under id `m1`. -/
def pvTricky : Provider :=
  ⟨some "me@x", "m7", none,
   fun mid => if mid == "m1" then some msgTricky else none, fun _ => []⟩

/-- A payload whose only plain-text part sits one nesting level down. -/
def nestedPayload : MPart :=
  .mk "multipart/mixed" none
    (some [.mk "multipart/alternative" none
      (some [.mk "text/plain" (some (some (B64.good "hello"))) none])])

/-- A payload with a `text/plain` part whose `body` dict has no `data`. -/
def noDataPayload : MPart :=
  .mk "multipart/mixed" none (some [.mk "text/plain" (some none) none])

/-- A stored message carrying `noDataPayload`. -/
def msgNoData : StoredMessage :=
  ⟨"t1", [("Subject", "s")], noDataPayload, "snippet text", []⟩

/-- A provider holding `msgNoData` under id `m1`. -/
def pvNoData : Provider :=
  ⟨some "me@x", "m9", none,
   fun mid => if mid == "m1" then some msgNoData else none, fun _ => []⟩

/-- A filesystem with one present-but-unreadable file and one readable
file. -/
def fsMixed : FS :=
  ⟨fun p =>
    if p == "locked.bin" then .unreadable
    else if p == "ok.txt" then .readable [104, 105]
    else .absent⟩

/-- An environment whose stored credential is expired with a refresh token
and whose refresh attempt fails, while every interactive flow would
succeed. -/
def envRefreshFail : AuthEnv :=
  ⟨some (some ⟨false, true, true⟩), false,
   .ok ⟨true, false, false⟩, .ok ⟨true, false, false⟩,
   .ok ⟨true, false, false⟩, true⟩

lemma stripRe_id_of_not_contains (l : List Char) (h : containsRe l = false) :
    stripRe l = l := by
  induction l using stripRe.induct with
  | case1 rest => simp [containsRe] at h
  | case2 c rest hne ih =>
    rw [containsRe.eq_2 c rest hne] at h
    rw [stripRe.eq_2 c rest hne, ih h]
  | case3 => rfl

lemma stripReStr_id_of_not_contains (s : String) (h : containsRe s.data = false) :
    stripReStr s = s := by
  rw [stripReStr, stripRe_id_of_not_contains s.data h]
  exact String.asString_toList s

lemma compose_headers_from (fs : FS) (sender : String) (toAddrs : List String)
    (subject body mt : String) (cc bcc : Option (List String))
    (hb : Option String) (atts : Option (List String)) :
    headerGet (Primary.compose fs sender toAddrs subject body mt cc bcc hb
      atts).1.headers "From" = some sender := by
  unfold Primary.compose
  match atts with
  | none => simp [headerGet]
  | some [] => simp [headerGet]
  | some (a :: rest) =>
    cases hA : Primary.attachLoop fs (a :: rest) with
    | mk ps ws => simp [hA, headerGet]

/-- C10: for every call to send_email or create_draft, the From header of
the composed outbound payload is the authenticated account's own address as
returned by the provider's profile query, independent of every
caller-supplied argument — two calls differing only in caller inputs
produce the same From header. -/
theorem C10_from_header_fixed (pv : Provider) (fs : FS)
    (toAddrs : List String) (subject body : String)
    (cc bcc : Option (List String)) (mt : String)
    (atts : Option (List String)) (hb : Option String)
    (toAddrs' : List String) (subject' body' : String)
    (cc' bcc' : Option (List String)) (mt' : String)
    (atts' : Option (List String)) (hb' : Option String) :
    headerGet (Primary.sendComposed fs pv toAddrs subject body cc bcc mt
        atts hb).1.headers "From" = some (Primary.getUserEmail pv) ∧
    headerGet (Primary.draftComposed fs pv toAddrs subject body cc bcc mt
        atts hb).1.headers "From" = some (Primary.getUserEmail pv) ∧
    headerGet (Primary.sendComposed fs pv toAddrs subject body cc bcc mt
        atts hb).1.headers "From"
      = headerGet (Primary.sendComposed fs pv toAddrs' subject' body' cc'
        bcc' mt' atts' hb').1.headers "From" := by
  refine ⟨compose_headers_from .., compose_headers_from .., ?_⟩
  rw [Primary.sendComposed, Primary.sendComposed, compose_headers_from,
    compose_headers_from]

/-- C7: for every message with both a plain body and an HTML body (declared
with the `multipart/alternative` mime type and a truthy `html_body`) and no
attachments, the encoded payload is a single multipart/alternative
container whose first body part is the plain-text variant and whose second
is the HTML variant, in that order. -/
theorem C7_alternative_order (fs : FS) (sender : String)
    (toAddrs : List String) (subject body : String)
    (cc bcc : Option (List String)) (h : String) (hh : h ≠ "") :
    (Primary.compose fs sender toAddrs subject body "multipart/alternative"
        cc bcc (some h) none).1.content
      = MimePart.multipart "alternative"
          [MimePart.text "plain" body, MimePart.text "html" h] := by
  simp [Primary.compose, Primary.bodyPart, strTruthy, bne_iff_ne, hh]

/-- Witness for C7 at a concrete message. -/
theorem C7_alternative_order_witness :
    (Primary.compose fsEmpty "me@x" ["a@b"] "Hi" "B" "multipart/alternative"
        none none (some "<b>B</b>") none).1.content
      = MimePart.multipart "alternative"
          [MimePart.text "plain" "B", MimePart.text "html" "<b>B</b>"] :=
  C7_alternative_order fsEmpty "me@x" ["a@b"] "Hi" "B" none none "<b>B</b>"
    (by decide)

lemma secondary_searchLoop_length (pv : Provider) (ids : List String) :
    ∀ items, Secondary.searchLoop pv ids = .ok items →
      items.length = ids.length := by
  induction ids with
  | nil => intro items h; cases h; rfl
  | cons mid rest ih =>
    intro items h
    unfold Secondary.searchLoop at h
    split at h
    · cases h
    · split at h
      · cases h
      · rename_i items' hrest
        cases h
        simp [ih items' hrest]

lemma primary_searchLoop_length (pv : Provider) (ids : List String) :
    ∀ items, Primary.searchLoop pv ids = .ok items →
      items.length = ids.length := by
  induction ids with
  | nil => intro items h; cases h; rfl
  | cons mid rest ih =>
    intro items h
    unfold Primary.searchLoop at h
    split at h
    · cases h
    · split at h
      · cases h
      · rename_i items' hrest
        cases h
        simp [ih items' hrest]

/-- C9: for every query string and every non-negative N,
searchMessages(query, maxResults=N) returns a list of at most N items, and
for N = 0 it returns the empty list as a success, not an error — in both
servers. -/
theorem C9_search_capped :
    (∀ pv q n ist, emailsLen (Secondary.searchEmailsTool pv q n ist) ≤ n) ∧
    (∀ pv q ist, Secondary.searchEmailsTool pv q 0 ist
        = .dict [("success", .bool true), ("count", .nat 0),
                 ("emails", .list [])]) ∧
    (∀ pv q n, exceptListLen (Primary.searchEmailsTool pv q n) ≤ n) ∧
    (∀ pv q, Primary.searchEmailsTool pv q 0 = .ok (.list [])) := by
  refine ⟨?_, ?_, ?_, ?_⟩
  · intro pv q n ist
    unfold Secondary.searchEmailsTool Secondary.searchEmailsBody
    cases hL : Secondary.searchLoop pv (providerList pv q n) with
    | error e => simp [pyTry, emailsLen, jget, jfind]
    | ok items =>
      have hlen := secondary_searchLoop_length pv _ _ hL
      have : items.length ≤ n := by
        rw [hlen, providerList, List.length_take]
        exact Nat.min_le_left ..
      simpa [pyTry, emailsLen, jget, jfind] using this
  · intro pv q ist
    unfold Secondary.searchEmailsTool Secondary.searchEmailsBody providerList
    simp [List.take_zero, Secondary.searchLoop, pyTry]
  · intro pv q n
    unfold Primary.searchEmailsTool Primary.searchEmails
    cases hL : Primary.searchLoop pv (providerList pv q n) with
    | error e => simp [exceptListLen]
    | ok items =>
      have hlen := primary_searchLoop_length pv _ _ hL
      have : items.length ≤ n := by
        rw [hlen, providerList, List.length_take]
        exact Nat.min_le_left ..
      simpa [exceptListLen] using this
  · intro pv q
    unfold Primary.searchEmailsTool Primary.searchEmails providerList
    simp [List.take_zero, Primary.searchLoop]

/-- C6 (code bug): on a payload whose text part has no data field, the
Secondary read fails as a whole with `{success: false}` instead of
degrading the body to an empty string; the Primary reader tolerates the
same payload and falls back to the snippet. -/
theorem C6_missing_data_fails_read :
    Secondary.readEmailTool pvNoData "m1" "full"
      = .dict [("success", .bool false), ("error", .str "data")] ∧
    Secondary.extractBody noDataPayload = .error ⟨"KeyError", "data"⟩ ∧
    Primary.readEmailStr pvNoData "m1"
      = .ok "Subject: s\nFrom: \n\nsnippet text" :=
  ⟨rfl, rfl, rfl⟩

/-- C5 counterexample: a plain-text part one nesting level down is ignored
by the Secondary decoder, which returns the empty string where the spec's
preference order returns the nested plain text. -/
theorem C5_cex :
    Secondary.extractBody nestedPayload = .ok "" ∧
    specPreferredBody "snip" nestedPayload = "hello" ∧
    ("" : String) ≠ "hello" :=
  ⟨rfl, rfl, by decide⟩

lemma extractLoop_top (l : List MPart)
    (h : ∀ p ∈ l,
      (p.mimeType == "text/plain" || p.mimeType == "text/html") = true →
      ∃ t, p.body = some (some (B64.good t))) :
    ∀ acc, Secondary.extractLoop acc l
      = .ok ((firstPlainText l).getD ((lastHtmlText l).getD acc)) := by
  induction l with
  | nil => intro acc; rfl
  | cons p rest ih =>
    intro acc
    have hrest : ∀ q ∈ rest,
        (q.mimeType == "text/plain" || q.mimeType == "text/html") = true →
        ∃ t, q.body = some (some (B64.good t)) :=
      fun q hq => h q (List.mem_cons_of_mem _ hq)
    by_cases hp : p.mimeType == "text/plain"
    · obtain ⟨t, ht⟩ := h p (List.mem_cons_self ..) (by simp [hp])
      simp [Secondary.extractLoop, hp, Secondary.getBodyData, ht, b64decode,
        firstPlainText, goodText]
    · by_cases hq : p.mimeType == "text/html"
      · obtain ⟨t, ht⟩ := h p (List.mem_cons_self ..) (by simp [hq])
        have hloop : Secondary.extractLoop acc (p :: rest)
            = Secondary.extractLoop t rest := by
          simp [Secondary.extractLoop, hp, hq, Secondary.getBodyData, ht,
            b64decode]
        rw [hloop, ih hrest t]
        cases hfp : firstPlainText rest with
        | some s =>
          simp [firstPlainText, hp, hfp, lastHtmlText]
        | none =>
          cases hl : lastHtmlText rest with
          | some u => simp [firstPlainText, hp, hfp, lastHtmlText, hl]
          | none =>
            simp [firstPlainText, hp, hfp, lastHtmlText, hl, hq, goodText,
              ht]
      · have hloop : Secondary.extractLoop acc (p :: rest)
            = Secondary.extractLoop acc rest := by
          simp [Secondary.extractLoop, hp, hq]
        rw [hloop, ih hrest acc]
        cases hl : lastHtmlText rest with
        | some u => simp [firstPlainText, hp, lastHtmlText, hl]
        | none => simp [firstPlainText, hp, lastHtmlText, hl, hq]

/-- C5 (amended): the Secondary decoder examines only the top level of the
parts list — the decoded body is the first top-level plain part's text if
a plain part exists, else the last top-level HTML part's text, else the
empty string; nested parts and the snippet are never consulted. -/
theorem C5_amended (mt : String) (bd : Option (Option B64))
    (ps : List MPart)
    (h : ∀ p ∈ ps,
      (p.mimeType == "text/plain" || p.mimeType == "text/html") = true →
      ∃ t, p.body = some (some (B64.good t))) :
    Secondary.extractBody (.mk mt bd (some ps))
      = .ok ((firstPlainText ps).getD ((lastHtmlText ps).getD "")) := by
  have := extractLoop_top ps h ""
  simpa [Secondary.extractBody, MPart.parts] using this

/-- Witness for C5 (amended): with a top-level HTML part before a top-level
plain part, the plain part wins. -/
theorem C5_amended_witness :
    Secondary.extractBody (.mk "multipart/alternative" none
      (some [.mk "text/html" (some (some (B64.good "H"))) none,
             .mk "text/plain" (some (some (B64.good "P"))) none]))
      = .ok ((firstPlainText
          [.mk "text/html" (some (some (B64.good "H"))) none,
           .mk "text/plain" (some (some (B64.good "P"))) none]).getD
          ((lastHtmlText
            [.mk "text/html" (some (some (B64.good "H"))) none,
             .mk "text/plain" (some (some (B64.good "P"))) none]).getD "")) :=
  C5_amended "multipart/alternative" none
    [.mk "text/html" (some (some (B64.good "H"))) none,
     .mk "text/plain" (some (some (B64.good "P"))) none]
    (by
      intro p hp hm
      simp only [List.mem_cons, List.not_mem_nil, or_false] at hp
      rcases hp with rfl | rfl
      · exact ⟨"H", rfl⟩
      · exact ⟨"P", rfl⟩)

/-- C2 counterexample: for the stored subject "RRe: e: hi" (which does not
start with "Re: "), the reply subject is "Re: Re: hi" — the "Re: " prefix
occurs twice, and the subject is not the original with "Re: " prepended. -/
theorem C2_cex :
    (Secondary.replyCompose pvTricky "m1" "body" false).map
        (fun r => r.1.subject) = .ok "Re: Re: hi" ∧
    countRe ("Re: Re: hi").data = 2 ∧
    "Re: Re: hi" ≠ "Re: " ++ "RRe: e: hi" :=
  ⟨rfl, by decide, by decide⟩

/-- C2 (amended): replyToMessage sends the reply with exactly the original
thread id, and the reply's subject is "Re: " followed by the original
subject with every occurrence of "Re: " removed in one left-to-right pass;
when the subject contains no "Re: " at all this is exactly "Re: " plus the
subject (but the removal can create new occurrences, so the prefix is not
always unique). -/
theorem C2_amended (pv : Provider) (mid body S : String) (html : Bool)
    (msg : StoredMessage) (h1 : pv.messages mid = some msg)
    (h2 : dictGet msg.headers "Subject" = some S) (h3 : pv.sendOk = none) :
    (Secondary.replyCompose pv mid body html).map
        (fun r => (r.1.subject, r.2))
      = .ok ("Re: " ++ stripReStr S, msg.threadId) ∧
    (containsRe S.data = false → "Re: " ++ stripReStr S = "Re: " ++ S) ∧
    Secondary.replyTool pv mid body html
      = .dict [("success", .bool true), ("messageId", .str pv.newId),
               ("threadId", .str msg.threadId)] := by
  refine ⟨?_, ?_, ?_⟩
  · simp [Secondary.replyCompose, providerGetMessage, h1, h2, Except.map]
  · intro hnc
    rw [stripReStr_id_of_not_contains S hnc]
  · simp [Secondary.replyTool, Secondary.replyCompose, providerGetMessage,
      h1, h3, providerSend, pyTry, Option.getD]

/-- Witness for C2 (amended) at the concrete tricky message. -/
theorem C2_amended_witness :
    (Secondary.replyCompose pvTricky "m1" "body" false).map
        (fun r => (r.1.subject, r.2))
      = .ok ("Re: " ++ stripReStr "RRe: e: hi", msgTricky.threadId) ∧
    (containsRe ("RRe: e: hi" : String).data = false →
      "Re: " ++ stripReStr "RRe: e: hi" = "Re: " ++ "RRe: e: hi") ∧
    Secondary.replyTool pvTricky "m1" "body" false
      = .dict [("success", .bool true), ("messageId", .str pvTricky.newId),
               ("threadId", .str msgTricky.threadId)] :=
  C2_amended pvTricky "m1" "body" "RRe: e: hi" false msgTricky rfl rfl rfl

/-- C4 counterexample: with a stored expired-refreshable credential and a
failing refresh, the Secondary authentication aborts with the refresh
error and never attempts the interactive authorization-code exchange. -/
theorem C4_cex :
    (Secondary.authenticate envRefreshFail false).result
      = .error "refresh failed" ∧
    (Secondary.authenticate envRefreshFail false).interactiveTried
      = false :=
  ⟨rfl, rfl⟩

/-- C4 (amended): on a stored expired credential holding a refresh token
whose refresh attempt fails, the Primary server falls through to the
interactive authorization-code flow (whose outcome becomes the result),
while the Secondary server lets the refresh error propagate and aborts
authentication without attempting the interactive grant. -/
theorem C4_amended (env : AuthEnv) (c : Creds) (m : Bool)
    (h1 : env.stored = some (some c)) (h2 : c.valid = false)
    (h3 : c.expired = true) (h4 : c.hasRefreshToken = true)
    (h5 : env.refreshOk = false) :
    ((Primary.getService env).interactiveTried = true ∧
     (Primary.getService env).refreshTried = true ∧
     (Primary.getService env).result = env.interactive) ∧
    ((Secondary.authenticate env m).interactiveTried = false ∧
     (Secondary.authenticate env m).result = .error "refresh failed") := by
  constructor
  · cases hi : env.interactive with
    | ok ic =>
      refine ⟨?_, ?_, ?_⟩ <;>
        simp [Primary.getService, h1, h2, h3, h4, h5, hi]
    | error e =>
      refine ⟨?_, ?_, ?_⟩ <;>
        simp [Primary.getService, h1, h2, h3, h4, h5, hi]
  · constructor <;> simp [Secondary.authenticate, h1, h2, h3, h4, h5]

/-- Witness for C4 (amended) at the concrete environment. -/
theorem C4_amended_witness :
    ((Primary.getService envRefreshFail).interactiveTried = true ∧
     (Primary.getService envRefreshFail).refreshTried = true ∧
     (Primary.getService envRefreshFail).result
       = envRefreshFail.interactive) ∧
    ((Secondary.authenticate envRefreshFail true).interactiveTried = false ∧
     (Secondary.authenticate envRefreshFail true).result
       = .error "refresh failed") :=
  C4_amended envRefreshFail ⟨false, true, true⟩ true rfl rfl rfl rfl rfl

/-- C3 counterexample: a successful Primary send returns only the plain
confirmation string carrying the message id — the returned value exposes
no thread id field at all. -/
theorem C3_cex :
    Primary.sendEmailTool fsEmpty pvPlain ["a@b"] "Hi" "B" none none
        "text/plain" none none
      = .ok (.str "Email sent successfully. Message ID: m1") ∧
    jget (.str "Email sent successfully. Message ID: m1") "threadId"
      = none ∧
    Primary.sendEmail fsEmpty pvPlain ["a@b"] "Hi" "B" none none
        "text/plain" none none = .ok "m1" :=
  ⟨rfl, rfl, rfl⟩

/-- C3 (amended): the Secondary send returns both the provider-assigned
message id and thread id, and a send that starts a new thread has thread id
equal to the message id; the Primary send returns only the message id. -/
theorem C3_amended (fs : FS) (pv : Provider) (toAddr subject body : String)
    (cc bcc : Option String) (html : Bool) (h : pv.sendOk = none) :
    Secondary.sendEmailTool fs pv toAddr subject body cc bcc html none
      = .dict [("success", .bool true), ("messageId", .str pv.newId),
               ("threadId", .str pv.newId)] := by
  simp [Secondary.sendEmailTool, Secondary.sendComposed, providerSend, h,
    pyTry, Option.getD]

/-- Witness for C3 (amended) at a concrete provider. -/
theorem C3_amended_witness :
    Secondary.sendEmailTool fsEmpty pvPlain "a@b" "Hi" "B" none none false
        none
      = .dict [("success", .bool true), ("messageId", .str pvPlain.newId),
               ("threadId", .str pvPlain.newId)] :=
  C3_amended fsEmpty pvPlain "a@b" "Hi" "B" none none false rfl

lemma pyTry_shaped (b : Except PyErr JVal)
    (h : ∀ v, b = .ok v → jget v "success" = some (.bool true)) :
    resultShaped (pyTry b) := by
  cases b with
  | ok v => exact Or.inl (h v rfl)
  | error e => exact Or.inr ⟨e.msg, rfl⟩

/-- C1 counterexample: a provider failure inside the Primary `send_email`
tool is re-raised past the tool boundary instead of being normalized into
the `{success: false, error}` shape. -/
theorem C1_cex :
    Primary.sendEmailTool fsEmpty pvQuota ["a@b"] "Hi" "B" none none
        "text/plain" none none
      = .error ⟨"HttpError", "quotaExceeded"⟩ :=
  rfl

/-- C1 (amended): every embedded tool of the Secondary server returns the
`{success: false, error}` dict when any failure is raised inside it and a
`success: true` dict on success — no exception escapes; the Primary
server's tool wrappers instead re-raise errors and return bare strings on
success. -/
theorem C1_amended_thm :
    (∀ fs pv toAddr subject body cc bcc html atts,
      resultShaped
        (Secondary.sendEmailTool fs pv toAddr subject body cc bcc html
          atts)) ∧
    (∀ pv mid fmt, resultShaped (Secondary.readEmailTool pv mid fmt)) ∧
    (∀ pv q n ist, resultShaped (Secondary.searchEmailsTool pv q n ist)) ∧
    (∀ pv mid body html,
      resultShaped (Secondary.replyTool pv mid body html)) := by
  refine ⟨?_, ?_, ?_, ?_⟩
  · intro fs pv toAddr subject body cc bcc html atts
    unfold Secondary.sendEmailTool
    apply pyTry_shaped
    intro v hv
    split at hv
    · cases hv
    · split at hv
      · cases hv
      · injection hv with h
        subst h
        rfl
  · intro pv mid fmt
    unfold Secondary.readEmailTool
    apply pyTry_shaped
    intro v hv
    unfold Secondary.readEmailBody at hv
    split at hv
    · cases hv
    · split at hv
      · cases hv
      · injection hv with h
        subst h
        rfl
  · intro pv q n ist
    unfold Secondary.searchEmailsTool
    apply pyTry_shaped
    intro v hv
    unfold Secondary.searchEmailsBody at hv
    split at hv
    · cases hv
    · injection hv with h
      subst h
      rfl
  · intro pv mid body html
    unfold Secondary.replyTool
    apply pyTry_shaped
    intro v hv
    split at hv
    · cases hv
    · split at hv
      · cases hv
      · injection hv with h
        subst h
        rfl

lemma attachLoop_eq (fs : FS) (l : List String) :
    Primary.attachLoop fs l
      = (l.filterMap (readablePart fs),
         (l.filter
           (fun p => !(fs.files p).isReadable)).map attachWarning) := by
  induction l with
  | nil => rfl
  | cons f rest ih =>
    cases hf : fs.files f <;>
      simp [Primary.attachLoop, ih, readablePart, hf, FileState.isReadable,
        attachWarning, List.filterMap_cons, List.filter_cons]

/-- C8 counterexample: a present-but-unreadable attachment aborts the whole
Secondary send with an error result instead of being skipped. -/
theorem C8_cex :
    Secondary.sendEmailTool fsMixed pvPlain "a@b" "Hi" "B" none none false
        (some ["locked.bin"])
      = .dict [("success", .bool false), ("error", .str "locked.bin")] :=
  rfl

/-- C8 (amended): in the Primary composer an unreadable attachment path is
skipped, a warning naming it is recorded, and composition continues with
the body part and the remaining readable attachments; the Secondary server
skips a nonexistent path silently (the send still succeeds, with no
warning mechanism at all), but a path that exists and cannot be read
aborts its send. -/
theorem C8_amended
    (fs : FS) (sender : String) (toAddrs : List String)
    (subject body mt : String) (cc bcc : Option (List String))
    (hb : Option String) (a : String) (rest : List String) (f : String)
    (hmem : f ∈ a :: rest)
    (hbad : (fs.files f).isReadable = false)
    (fs2 : FS) (pv2 : Provider) (toAddr2 subject2 body2 : String)
    (cc2 bcc2 : Option String) (html2 : Bool) (g : String)
    (hg : fs2.files g = .absent) (hpv : pv2.sendOk = none) :
    (Primary.compose fs sender toAddrs subject body mt cc bcc hb
        (some (a :: rest))).1.content
      = .multipart "mixed"
          (Primary.bodyPart body mt hb ::
            (a :: rest).filterMap (readablePart fs)) ∧
    (Primary.compose fs sender toAddrs subject body mt cc bcc hb
        (some (a :: rest))).2
      = ((a :: rest).filter
          (fun p => !(fs.files p).isReadable)).map attachWarning ∧
    readablePart fs f = none ∧
    attachWarning f ∈ (Primary.compose fs sender toAddrs subject body mt cc
        bcc hb (some (a :: rest))).2 ∧
    Secondary.sendComposed fs2 toAddr2 subject2 body2 cc2 bcc2 html2
        (some [g])
      = .ok ⟨Secondary.sendHeaders toAddr2 subject2 cc2 bcc2,
             .multipart "mixed"
               [.text (if html2 then "html" else "plain") body2]⟩ ∧
    Secondary.sendEmailTool fs2 pv2 toAddr2 subject2 body2 cc2 bcc2 html2
        (some [g])
      = .dict [("success", .bool true), ("messageId", .str pv2.newId),
               ("threadId", .str pv2.newId)] := by
  have hC : (Primary.compose fs sender toAddrs subject body mt cc bcc hb
      (some (a :: rest)))
    = (⟨[("From", sender),
          ("To", match toAddrs with | [] => "" | _ => joinComma toAddrs),
          ("Subject", subject)] ++
          (match cc.map joinComma with
           | some s => if s != "" then [("Cc", s)] else []
           | none => []) ++
          (match bcc.map joinComma with
           | some s => if s != "" then [("Bcc", s)] else []
           | none => []),
        .multipart "mixed"
          (Primary.bodyPart body mt hb ::
            (a :: rest).filterMap (readablePart fs))⟩,
       ((a :: rest).filter
         (fun p => !(fs.files p).isReadable)).map attachWarning) := by
    unfold Primary.compose
    simp only [attachLoop_eq]
  have hnone : readablePart fs f = none := by
    unfold readablePart
    cases hf : fs.files f with
    | absent => rfl
    | unreadable => rfl
    | readable c =>
      rw [hf] at hbad
      simp [FileState.isReadable] at hbad
  refine ⟨by rw [hC], by rw [hC], hnone, ?_, ?_, ?_⟩
  · rw [hC]
    exact List.mem_map.2
      ⟨f, List.mem_filter.2 ⟨hmem, by simp [hbad]⟩, rfl⟩
  · simp [Secondary.sendComposed, Secondary.attachParts, hg]
  · simp [Secondary.sendEmailTool, Secondary.sendComposed,
      Secondary.attachParts, hg, providerSend, hpv, pyTry, Option.getD]

/-- Witness for C8 (amended) at a concrete filesystem with one unreadable
and one readable attachment. -/
theorem C8_amended_witness :
    (Primary.compose fsMixed "me@x" ["a@b"] "Hi" "B" "text/plain" none none
        none (some ["locked.bin", "ok.txt"])).1.content
      = .multipart "mixed"
          (Primary.bodyPart "B" "text/plain" none ::
            (["locked.bin", "ok.txt"]).filterMap (readablePart fsMixed)) ∧
    (Primary.compose fsMixed "me@x" ["a@b"] "Hi" "B" "text/plain" none none
        none (some ["locked.bin", "ok.txt"])).2
      = ((["locked.bin", "ok.txt"]).filter
          (fun p => !(fsMixed.files p).isReadable)).map attachWarning ∧
    readablePart fsMixed "locked.bin" = none ∧
    attachWarning "locked.bin" ∈ (Primary.compose fsMixed "me@x" ["a@b"]
        "Hi" "B" "text/plain" none none none
        (some ["locked.bin", "ok.txt"])).2 ∧
    Secondary.sendComposed fsEmpty "a@b" "Hi" "B" none none false
        (some ["gone.txt"])
      = .ok ⟨Secondary.sendHeaders "a@b" "Hi" none none,
             .multipart "mixed" [.text (if false then "html" else "plain") "B"]⟩ ∧
    Secondary.sendEmailTool fsEmpty pvPlain "a@b" "Hi" "B" none none false
        (some ["gone.txt"])
      = .dict [("success", .bool true), ("messageId", .str pvPlain.newId),
               ("threadId", .str pvPlain.newId)] :=
  C8_amended fsMixed "me@x" ["a@b"] "Hi" "B" "text/plain" none none none
    "locked.bin" ["ok.txt"] "locked.bin" (by decide) rfl
    fsEmpty pvPlain "a@b" "Hi" "B" none none false "gone.txt" rfl rfl
